import Mathlib

/-!
# Verification of the Flexibility_Options market-clearing pipeline

A shallow embedding of the day-ahead flexibility-option clearing model
(`src/models/DAFOModel.py`), the real-time model surface
(`src/models/RTSimModel.py`), the DA-to-RT extraction
(`src/data_utils/extract_da.py`), the settlement functions
(`src/data_utils/results_processing.py`), the data-preparation check
(`src/data_utils/DataProcessor.py`), and the solver-status handling of the
two pipeline drivers (`main.py`, `batch_simulation.py`).

Machine reals are modelled by `ℚ`; Pyomo index sets `RangeSet(1, n)` by
`Finset.Icc 1 n`; a Pyomo `AbstractModel`'s constraint families by a
`Prop`-valued structure whose fields are the constraint rules, quantified
over their declared index sets exactly as in the source.
-/

namespace FlexOpt

/-- Parameter table of the day-ahead model, mirroring `_define_parameters`
and the size fields of `DAFOModel.__init__`.  Indexed params are total
functions on `ℕ`; only values on the declared index sets are ever read. -/
structure DAData where
  numT : ℕ
  numS : ℕ
  numR : ℕ
  numG : ℕ
  numB : ℕ
  flag : ℕ → ℤ
  VC : ℕ → ℚ
  VCUP : ℕ → ℚ
  VCDN : ℕ → ℚ
  CAP : ℕ → ℚ
  RR : ℕ → ℚ
  DEMAND : ℕ → ℚ
  D1 : ℚ
  D2 : ℚ
  RE : ℕ → ℕ → ℚ
  PEN : ℚ
  PENDN : ℚ
  smallM : ℚ
  probTU : ℕ → ℚ
  probTD : ℕ → ℚ
  E_MAX : ℕ → ℚ
  P_MAX : ℕ → ℚ
  ETA_CH : ℕ → ℚ
  ETA_DCH : ℕ → ℚ
  E0 : ℕ → ℚ
  E_FINAL : ℕ → ℚ
  STORAGE_COST : ℕ → ℚ
  VCUP_B : ℕ → ℚ
  VCDN_B : ℕ → ℚ
  V_MARG : ℕ → ℚ

/-- `model.T = RangeSet(1, num_periods)`. -/
def Tset (D : DAData) : Finset ℕ := Finset.Icc 1 D.numT

/-- `model.S = RangeSet(1, num_scenarios)`. -/
def Sset (D : DAData) : Finset ℕ := Finset.Icc 1 D.numS

/-- `model.R = RangeSet(1, num_tiers)`. -/
def Rset (D : DAData) : Finset ℕ := Finset.Icc 1 D.numR

/-- `model.G = RangeSet(1, num_generators)` (empty when `num_generators = 0`,
matching the `Set(initialize=[])` branch since `Icc 1 0 = ∅`). -/
def Gset (D : DAData) : Finset ℕ := Finset.Icc 1 D.numG

/-- `model.B = RangeSet(1, num_storage)` (empty when `num_storage = 0`). -/
def Bset (D : DAData) : Finset ℕ := Finset.Icc 1 D.numB

/-- `model.G_FO_sellers = Set(initialize=[g for g in G if flag[g] == 1])`. -/
def G_FO_sellers (D : DAData) : Finset ℕ := (Gset D).filter (fun g => D.flag g = 1)

/-- `model.G_FO_buyers = Set(initialize=[g for g in G if flag[g] == -1])`. -/
def G_FO_buyers (D : DAData) : Finset ℕ := (Gset D).filter (fun g => D.flag g = -1)

/-- Decision variables of the day-ahead model (`_define_variables`).
Variables are total functions; the feasibility predicate constrains them
only on the index sets over which the corresponding Pyomo `Var` is
declared (in particular `xDA`, `hsu`, `hsd` are declared only over
`G_FO_sellers`, so values at buyer indices are unconstrained ghosts). -/
structure DAVars where
  d : ℕ → ℚ
  rgDA : ℕ → ℚ
  du : ℕ → ℕ → ℚ
  xDA : ℕ → ℕ → ℚ
  hsu : ℕ → ℕ → ℕ → ℚ
  hsd : ℕ → ℕ → ℕ → ℚ
  hdu : ℕ → ℕ → ℚ
  hdd : ℕ → ℕ → ℚ
  sdu : ℕ → ℕ → ℚ
  sdd : ℕ → ℕ → ℚ
  y : ℕ → ℕ → ℚ
  e : ℕ → ℕ → ℚ
  p_ch : ℕ → ℕ → ℚ
  p_dch : ℕ → ℕ → ℚ
  bsu : ℕ → ℕ → ℕ → ℚ
  bsd : ℕ → ℕ → ℕ → ℚ
  charge_state : ℕ → ℕ → ℚ
  discharge_state : ℕ → ℕ → ℚ

/-- The set of down tiers entering the flexibility-demand identity `Con6`
for scenario `s`: the source sums over `r in model.R if r <= s-1`. -/
def con6DownSet (D : DAData) (s : ℕ) : Finset ℕ :=
  (Rset D).filter (fun r => r ≤ s - 1)

/-- The set of up tiers entering the flexibility-demand identity `Con6`
for scenario `s`: the source sums over `r in model.R if r >= s`. -/
def con6UpSet (D : DAData) (s : ℕ) : Finset ℕ :=
  (Rset D).filter (fun r => s ≤ r)

/-- Nonnegativity facts coming from the `domain=NonNegativeReals`
declarations in `_define_variables` (`du`, `charge_state`,
`discharge_state` are declared over the reals and stay unconstrained). -/
def DADomains (D : DAData) (v : DAVars) : Prop :=
  (∀ t ∈ Tset D, 0 ≤ v.d t ∧ 0 ≤ v.rgDA t) ∧
  (∀ g ∈ G_FO_sellers D, ∀ t ∈ Tset D, 0 ≤ v.xDA g t) ∧
  (∀ r ∈ Rset D, ∀ g ∈ G_FO_sellers D, ∀ t ∈ Tset D, 0 ≤ v.hsu r g t ∧ 0 ≤ v.hsd r g t) ∧
  (∀ r ∈ Rset D, ∀ t ∈ Tset D,
    0 ≤ v.hdu r t ∧ 0 ≤ v.hdd r t ∧ 0 ≤ v.sdu r t ∧ 0 ≤ v.sdd r t) ∧
  (∀ s ∈ Sset D, ∀ t ∈ Tset D, 0 ≤ v.y s t) ∧
  (∀ b ∈ Bset D, ∀ t ∈ Tset D, 0 ≤ v.e b t ∧ 0 ≤ v.p_ch b t ∧ 0 ≤ v.p_dch b t) ∧
  (∀ r ∈ Rset D, ∀ b ∈ Bset D, ∀ t ∈ Tset D, 0 ≤ v.bsu r b t ∧ 0 ≤ v.bsd r b t)

/-- `Con3` — `DA_energy_balance`: seller energy + committed renewable +
net storage discharge + demand slack equals demand, for every period. -/
def DACon3 (D : DAData) (v : DAVars) : Prop :=
  ∀ t ∈ Tset D,
    (∑ g ∈ G_FO_sellers D, v.xDA g t) + v.rgDA t +
      (∑ b ∈ Bset D, (v.p_dch b t - v.p_ch b t)) + v.d t = D.DEMAND t

/-- `Con4UP` — `DA_flexup_balance`. -/
def DACon4UP (D : DAData) (v : DAVars) : Prop :=
  ∀ r ∈ Rset D, ∀ t ∈ Tset D,
    (∑ g ∈ G_FO_sellers D, v.hsu r g t) + (∑ b ∈ Bset D, v.bsu r b t) = v.hdu r t

/-- `Con4DN` — `DA_flexdn_balance`. -/
def DACon4DN (D : DAData) (v : DAVars) : Prop :=
  ∀ r ∈ Rset D, ∀ t ∈ Tset D,
    (∑ g ∈ G_FO_sellers D, v.hsd r g t) + (∑ b ∈ Bset D, v.bsd r b t) = v.hdd r t

/-- `Con6` — `DA_flex_demand`: `-du[s,t] + Σ_{r≤s-1}(hdd+sdd) -
Σ_{r≥s}(hdu+sdu) == RE[s,t] - rgDA[t]`. -/
def DACon6 (D : DAData) (v : DAVars) : Prop :=
  ∀ s ∈ Sset D, ∀ t ∈ Tset D,
    -v.du s t + (∑ r ∈ con6DownSet D s, (v.hdd r t + v.sdd r t)) -
      (∑ r ∈ con6UpSet D s, (v.hdu r t + v.sdu r t)) = D.RE s t - v.rgDA t

/-- `Con7` — `DA_flex_demand_bound`. -/
def DACon7 (D : DAData) (v : DAVars) : Prop :=
  ∀ s ∈ Sset D, ∀ t ∈ Tset D,
    (∑ r ∈ con6DownSet D s, (v.hdd r t + v.sdd r t)) +
      (∑ r ∈ con6UpSet D s, (v.hdu r t + v.sdu r t)) ≤ v.y s t

/-- `Con8` — `Y2`: `y[s,t] >= rgDA[t] - RE[s,t]`. -/
def DACon8 (D : DAData) (v : DAVars) : Prop :=
  ∀ s ∈ Sset D, ∀ t ∈ Tset D, v.rgDA t - D.RE s t ≤ v.y s t

/-- `Con9` — `Y1`: `y[s,t] >= RE[s,t] - rgDA[t]`. -/
def DACon9 (D : DAData) (v : DAVars) : Prop :=
  ∀ s ∈ Sset D, ∀ t ∈ Tset D, D.RE s t - v.rgDA t ≤ v.y s t

/-- `Con10up` — `RRUP` (indexed over `G_FO_sellers × T`; the
`if g in model.G_FO_sellers` guard in the rule is always true). -/
def DACon10up (D : DAData) (v : DAVars) : Prop :=
  ∀ g ∈ G_FO_sellers D, ∀ t ∈ Tset D, (∑ r ∈ Rset D, v.hsu r g t) ≤ D.RR g

/-- `Con10dn` — `RRDN`. -/
def DACon10dn (D : DAData) (v : DAVars) : Prop :=
  ∀ g ∈ G_FO_sellers D, ∀ t ∈ Tset D, (∑ r ∈ Rset D, v.hsd r g t) ≤ D.RR g

/-- `Con11up` — `ramp_rate_up` (skipped at `t = 1`). -/
def DACon11up (D : DAData) (v : DAVars) : Prop :=
  ∀ g ∈ G_FO_sellers D, ∀ t ∈ Tset D, t ≠ 1 →
    v.xDA g t - v.xDA g (t - 1) ≤ D.RR g

/-- `Con11dn` — `ramp_rate_down` (skipped at `t = 1`). -/
def DACon11dn (D : DAData) (v : DAVars) : Prop :=
  ∀ g ∈ G_FO_sellers D, ∀ t ∈ Tset D, t ≠ 1 →
    v.xDA g (t - 1) - v.xDA g t ≤ D.RR g

/-- `Con12` — `generation_limits`.  The Pyomo constraint is declared over
`G_FO_sellers × T`, so the rule's `else` branch (`xDA[g,t] <= CAP[g]` for
a non-seller `g`) is never instantiated; only the seller branch appears. -/
def DACon12 (D : DAData) (v : DAVars) : Prop :=
  ∀ g ∈ G_FO_sellers D, ∀ t ∈ Tset D,
    v.xDA g t + (∑ r ∈ Rset D, v.hsu r g t) ≤ D.CAP g

/-- `Con13` — `DA_down_cons`: total down-flexibility sold is bounded by the
scheduled energy. -/
def DACon13 (D : DAData) (v : DAVars) : Prop :=
  ∀ g ∈ G_FO_sellers D, ∀ t ∈ Tset D,
    (∑ r ∈ Rset D, v.hsd r g t) ≤ v.xDA g t

/-- `storage_balance` (DA): linear charge/discharge state evolution,
seeded by `E0` at `t = 1`. -/
def DAStorageBalance (D : DAData) (v : DAVars) : Prop :=
  ∀ b ∈ Bset D, ∀ t ∈ Tset D,
    v.e b t = (if t = 1 then D.E0 b else v.e b (t - 1)) +
      D.ETA_CH b * v.p_ch b t - (1 / D.ETA_DCH b) * v.p_dch b t

/-- `storage_capacity` (DA). -/
def DAStorageCapacity (D : DAData) (v : DAVars) : Prop :=
  ∀ b ∈ Bset D, ∀ t ∈ Tset D, v.e b t ≤ D.E_MAX b

/-- `storage_fo_up_dynamic` — `refined_storage_fo_up_limit`. -/
def DAStorageFoUp (D : DAData) (v : DAVars) : Prop :=
  ∀ r ∈ Rset D, ∀ b ∈ Bset D, ∀ t ∈ Tset D, v.bsu r b t ≤ v.e b t * D.ETA_DCH b

/-- `storage_fo_down_dynamic` — `refined_storage_fo_down_limit`. -/
def DAStorageFoDown (D : DAData) (v : DAVars) : Prop :=
  ∀ r ∈ Rset D, ∀ b ∈ Bset D, ∀ t ∈ Tset D,
    v.bsd r b t ≤ (D.E_MAX b - v.e b t) / D.ETA_CH b

/-- `storage_fo_power_cap`. -/
def DAStorageFoPowerCap (D : DAData) (v : DAVars) : Prop :=
  ∀ r ∈ Rset D, ∀ b ∈ Bset D, ∀ t ∈ Tset D, v.bsu r b t + v.bsd r b t ≤ D.P_MAX b

/-- `soft_charge_discharge_limit`. -/
def DASoftChargeDischarge (D : DAData) (v : DAVars) : Prop :=
  ∀ b ∈ Bset D, ∀ t ∈ Tset D, v.p_ch b t + v.p_dch b t ≤ D.P_MAX b

/-- `charging_cap`. -/
def DAChargingCap (D : DAData) (v : DAVars) : Prop :=
  ∀ b ∈ Bset D, ∀ t ∈ Tset D, v.p_ch b t ≤ v.charge_state b t * D.P_MAX b

/-- `discharging_cap`. -/
def DADischargingCap (D : DAData) (v : DAVars) : Prop :=
  ∀ b ∈ Bset D, ∀ t ∈ Tset D, v.p_dch b t ≤ v.discharge_state b t * D.P_MAX b

/-- `fo_profit_check_up`. -/
def DAFoProfitUp (D : DAData) (v : DAVars) : Prop :=
  ∀ r ∈ Rset D, ∀ b ∈ Bset D, ∀ t ∈ Tset D,
    D.V_MARG b * v.bsu r b t ≤ v.bsu r b t * D.PEN

/-- `fo_profit_check_dn`. -/
def DAFoProfitDn (D : DAData) (v : DAVars) : Prop :=
  ∀ r ∈ Rset D, ∀ b ∈ Bset D, ∀ t ∈ Tset D,
    D.V_MARG b * v.bsd r b t ≤ v.bsd r b t * D.PENDN

/-- Feasibility of the day-ahead model: variable domains plus every
constraint family of `DAFOModel._define_constraints`. -/
def DAFeasible (D : DAData) (v : DAVars) : Prop :=
  DADomains D v ∧ DACon3 D v ∧ DACon4UP D v ∧ DACon4DN D v ∧ DACon6 D v ∧
  DACon7 D v ∧ DACon8 D v ∧ DACon9 D v ∧ DACon10up D v ∧ DACon10dn D v ∧
  DACon11up D v ∧ DACon11dn D v ∧ DACon12 D v ∧ DACon13 D v ∧
  DAStorageBalance D v ∧ DAStorageCapacity D v ∧ DAStorageFoUp D v ∧
  DAStorageFoDown D v ∧ DAStorageFoPowerCap D v ∧ DASoftChargeDischarge D v ∧
  DAChargingCap D v ∧ DADischargingCap D v ∧ DAFoProfitUp D v ∧ DAFoProfitDn D v

/-- The day-ahead objective `obj_expression` of `DAFOModel._define_objective`,
term by term in source order.  The literal `0.2` weighting the demand-slack
terms is `1 / 5 : ℚ`. -/
def dafoObj (D : DAData) (v : DAVars) : ℚ :=
  (∑ g ∈ G_FO_sellers D, ∑ t ∈ Tset D, D.VC g * v.xDA g t) +
  (∑ g ∈ G_FO_sellers D, ∑ r ∈ Rset D, ∑ t ∈ Tset D, D.probTU r * D.VCUP g * v.hsu r g t) +
  (-(∑ g ∈ G_FO_sellers D, ∑ r ∈ Rset D, ∑ t ∈ Tset D, D.probTD r * D.VCDN g * v.hsd r g t)) +
  (∑ b ∈ Bset D, ∑ r ∈ Rset D, ∑ t ∈ Tset D, D.probTU r * D.VCUP_B b * v.bsu r b t) +
  (-(∑ b ∈ Bset D, ∑ r ∈ Rset D, ∑ t ∈ Tset D, D.probTD r * D.VCDN_B b * v.bsd r b t)) +
  (∑ r ∈ Rset D, ∑ t ∈ Tset D, D.probTU r * D.PEN * v.sdu r t) +
  (-(∑ r ∈ Rset D, ∑ t ∈ Tset D, D.probTD r * D.PENDN * v.sdd r t)) +
  ((∑ s ∈ Sset D, ∑ t ∈ Tset D, v.y s t) * D.smallM) +
  (∑ s ∈ Sset D, ∑ t ∈ Tset D, (1 / 5 : ℚ) * D.D1 * (v.d t + v.du s t)) +
  ((1 / 5 : ℚ) * D.D2 * ∑ s ∈ Sset D, ∑ t ∈ Tset D, (v.d t + v.du s t) ^ 2) +
  (∑ b ∈ Bset D, ∑ t ∈ Tset D, D.STORAGE_COST b * (v.p_ch b t + v.p_dch b t)) +
  (-(∑ b ∈ Bset D, ∑ t ∈ Tset D, D.V_MARG b * v.e b t))

/-- Modelled from the spec: the objective of "a formulation with no storage
terms at all" — `dafoObj` with the storage flexibility, throughput and
opportunity-value terms removed. -/
def dafoObjNoStorage (D : DAData) (v : DAVars) : ℚ :=
  (∑ g ∈ G_FO_sellers D, ∑ t ∈ Tset D, D.VC g * v.xDA g t) +
  (∑ g ∈ G_FO_sellers D, ∑ r ∈ Rset D, ∑ t ∈ Tset D, D.probTU r * D.VCUP g * v.hsu r g t) +
  (-(∑ g ∈ G_FO_sellers D, ∑ r ∈ Rset D, ∑ t ∈ Tset D, D.probTD r * D.VCDN g * v.hsd r g t)) +
  (∑ r ∈ Rset D, ∑ t ∈ Tset D, D.probTU r * D.PEN * v.sdu r t) +
  (-(∑ r ∈ Rset D, ∑ t ∈ Tset D, D.probTD r * D.PENDN * v.sdd r t)) +
  ((∑ s ∈ Sset D, ∑ t ∈ Tset D, v.y s t) * D.smallM) +
  (∑ s ∈ Sset D, ∑ t ∈ Tset D, (1 / 5 : ℚ) * D.D1 * (v.d t + v.du s t)) +
  ((1 / 5 : ℚ) * D.D2 * ∑ s ∈ Sset D, ∑ t ∈ Tset D, (v.d t + v.du s t) ^ 2)

/-- Modelled from the spec: no-storage energy balance (no net storage
discharge term). -/
def DACon3NoStorage (D : DAData) (v : DAVars) : Prop :=
  ∀ t ∈ Tset D,
    (∑ g ∈ G_FO_sellers D, v.xDA g t) + v.rgDA t + v.d t = D.DEMAND t

/-- Modelled from the spec: no-storage up-flexibility balance. -/
def DACon4UPNoStorage (D : DAData) (v : DAVars) : Prop :=
  ∀ r ∈ Rset D, ∀ t ∈ Tset D, (∑ g ∈ G_FO_sellers D, v.hsu r g t) = v.hdu r t

/-- Modelled from the spec: no-storage down-flexibility balance. -/
def DACon4DNNoStorage (D : DAData) (v : DAVars) : Prop :=
  ∀ r ∈ Rset D, ∀ t ∈ Tset D, (∑ g ∈ G_FO_sellers D, v.hsd r g t) = v.hdd r t

/-- Modelled from the spec: variable domains of the no-storage formulation
(no storage variables). -/
def DADomainsNoStorage (D : DAData) (v : DAVars) : Prop :=
  (∀ t ∈ Tset D, 0 ≤ v.d t ∧ 0 ≤ v.rgDA t) ∧
  (∀ g ∈ G_FO_sellers D, ∀ t ∈ Tset D, 0 ≤ v.xDA g t) ∧
  (∀ r ∈ Rset D, ∀ g ∈ G_FO_sellers D, ∀ t ∈ Tset D, 0 ≤ v.hsu r g t ∧ 0 ≤ v.hsd r g t) ∧
  (∀ r ∈ Rset D, ∀ t ∈ Tset D,
    0 ≤ v.hdu r t ∧ 0 ≤ v.hdd r t ∧ 0 ≤ v.sdu r t ∧ 0 ≤ v.sdd r t) ∧
  (∀ s ∈ Sset D, ∀ t ∈ Tset D, 0 ≤ v.y s t)

/-- Modelled from the spec: feasibility of "a formulation with no storage
terms at all" — every non-storage constraint family, with the storage sums
dropped from the energy and flexibility balances. -/
def DAFeasibleNoStorage (D : DAData) (v : DAVars) : Prop :=
  DADomainsNoStorage D v ∧ DACon3NoStorage D v ∧ DACon4UPNoStorage D v ∧
  DACon4DNNoStorage D v ∧ DACon6 D v ∧ DACon7 D v ∧ DACon8 D v ∧ DACon9 D v ∧
  DACon10up D v ∧ DACon10dn D v ∧ DACon11up D v ∧ DACon11dn D v ∧
  DACon12 D v ∧ DACon13 D v

/-- The day-ahead objective with the two demand-slack cost terms removed
(terms 1–5, 7, 8 of `obj_expression`); used to isolate the slack cost. -/
def dafoObjNonSlack (D : DAData) (v : DAVars) : ℚ :=
  (∑ g ∈ G_FO_sellers D, ∑ t ∈ Tset D, D.VC g * v.xDA g t) +
  (∑ g ∈ G_FO_sellers D, ∑ r ∈ Rset D, ∑ t ∈ Tset D, D.probTU r * D.VCUP g * v.hsu r g t) +
  (-(∑ g ∈ G_FO_sellers D, ∑ r ∈ Rset D, ∑ t ∈ Tset D, D.probTD r * D.VCDN g * v.hsd r g t)) +
  (∑ b ∈ Bset D, ∑ r ∈ Rset D, ∑ t ∈ Tset D, D.probTU r * D.VCUP_B b * v.bsu r b t) +
  (-(∑ b ∈ Bset D, ∑ r ∈ Rset D, ∑ t ∈ Tset D, D.probTD r * D.VCDN_B b * v.bsd r b t)) +
  (∑ r ∈ Rset D, ∑ t ∈ Tset D, D.probTU r * D.PEN * v.sdu r t) +
  (-(∑ r ∈ Rset D, ∑ t ∈ Tset D, D.probTD r * D.PENDN * v.sdd r t)) +
  ((∑ s ∈ Sset D, ∑ t ∈ Tset D, v.y s t) * D.smallM) +
  (∑ b ∈ Bset D, ∑ t ∈ Tset D, D.STORAGE_COST b * (v.p_ch b t + v.p_dch b t)) +
  (-(∑ b ∈ Bset D, ∑ t ∈ Tset D, D.V_MARG b * v.e b t))

/-- Per-scenario demand-slack cost (linear plus quadratic), before any
scenario weighting, summed over scenarios. -/
def scenSlackSum (D : DAData) (v : DAVars) : ℚ :=
  ∑ s ∈ Sset D,
    ((∑ t ∈ Tset D, D.D1 * (v.d t + v.du s t)) +
      D.D2 * ∑ t ∈ Tset D, (v.d t + v.du s t) ^ 2)

/-- Modelled from the spec: the demand-slack cost as "an expected value
under uniform scenario weights" — each scenario weighted `1 / S`. -/
def uniformSlackCost (D : DAData) (v : DAVars) : ℚ :=
  ∑ s ∈ Sset D,
    (1 / (D.numS : ℚ)) *
      ((∑ t ∈ Tset D, D.D1 * (v.d t + v.du s t)) +
        D.D2 * ∑ t ∈ Tset D, (v.d t + v.du s t) ^ 2)

/-- Modelled from the spec: the tier-direction convention of §3, "an up
tier r is exercised exactly when the realized scenario index is ≥ r" —
under scenario `s`, the up tiers this rule exercises. -/
def specUpExerciseSet (D : DAData) (s : ℕ) : Finset ℕ :=
  (Rset D).filter (fun r => r ≤ s)

/-- Modelled from the spec: "a down tier when it is ≤ r−1" — under
scenario `s`, the down tiers the spec rule exercises (`s ≤ r - 1`). -/
def specDownExerciseSet (D : DAData) (s : ℕ) : Finset ℕ :=
  (Rset D).filter (fun r => s ≤ r - 1)

/-!
## DA-to-RT extraction (`src/data_utils/extract_da.py`)
-/

/-- The scenario probabilities `extract_da` places in `dataRT`:
`{s: 1.0/len(i.S) for s in i.S}` (line 127 of
`src/data_utils/extract_da.py`, the copy imported by `main.py` and
`batch_simulation.py`). -/
def extract_da_prob (S : ℕ) : ℕ → ℚ := fun _ => 1 / (S : ℚ)

/-- The keys of the `dataRT` dictionary built by `extract_da`
(`src/data_utils/extract_da.py`, lines 117–134), before the optional
storage block. -/
def extract_da_dataRT_keys : List String :=
  ["RE", "CAP", "VC", "VCUP", "VCDN", "DEMAND", "D1", "D2", "flag",
   "prob", "RR", "xDA", "PEN", "PENDN", "REDA", "DAdr"]

/-!
## Real-time model surface (`src/models/RTSimModel.py`)

Pyomo resolves `instance.name` through the components assigned in the
model-building methods; accessing any other name raises `AttributeError`.
We record the component names `RTSimModel` assigns (every
`self.model.X = ...` in `_define_sets`, `_define_parameters`,
`_define_variables`, `_define_objective`, `_define_constraints`) and model
attribute access as lookup in that list.
-/

/-- All component names defined on the RT model by `RTSimModel`. -/
def rtsimComponentNames : List String :=
  ["T", "S", "G", "B",
   "VC", "VCUP", "VCDN", "CAP", "RR", "prob", "RE", "DEMAND", "D1", "D2",
   "xDA", "REDA", "PEN", "PENDN", "DAdr",
   "E_MAX", "P_MAX", "ETA_CH", "ETA_DCH", "E0", "STORAGE_COST", "E_FINAL",
   "VCUP_B", "VCDN_B", "e_DA", "p_ch_DA", "p_dch_DA",
   "xup", "xdn", "d", "rgup", "rgdn", "sdup", "sddn",
   "e", "p_ch", "p_dch", "b_up", "b_dn",
   "OBJ",
   "Con3", "Con4", "Con5up", "Con5dn", "Con6", "Con7",
   "storage_balance", "storage_capacity", "power_limits",
   "storage_adjustment_limits", "final_soc", "storage_rt_up_cap",
   "storage_rt_dn_cap", "dual"]

/-- The RT-instance attributes `calculate_rt_margins` reads, in source
order (`src/data_utils/results_processing.py`, lines 5–21). -/
def rtMarginsAttrAccesses : List String :=
  ["S", "G_FO_sellers", "T", "dual", "Con3", "prob", "xup", "xdn"]

/-- The RT-instance attributes `calculate_rt_payoffs` reads, in source
order (`src/data_utils/results_processing.py`, lines 38–82). -/
def rtPayoffsAttrAccesses : List String :=
  ["S", "G_FO_sellers", "T", "dual", "Con3", "prob"]

/-- Attribute resolution against a component list: the first access to an
undefined name raises (`Except.error` carries the offending name). -/
def resolveAttrAccesses (accesses defined : List String) : Except String Unit :=
  match accesses.find? (fun a => !(defined.contains a)) with
  | some a => Except.error a
  | none => Except.ok ()

/-- Running `calculate_rt_margins` against an `RTSimModel` instance:
its attribute accesses resolved against the RT component names. -/
def calculate_rt_margins_onRT : Except String Unit :=
  resolveAttrAccesses rtMarginsAttrAccesses rtsimComponentNames

/-- Running `calculate_rt_payoffs` against an `RTSimModel` instance. -/
def calculate_rt_payoffs_onRT : Except String Unit :=
  resolveAttrAccesses rtPayoffsAttrAccesses rtsimComponentNames

/-!
## RT payoff arithmetic (`calculate_rt_payoffs`)

The payoff loops of `calculate_rt_payoffs` read only the RT duals and
probabilities, the `VCUP`/`VCDN` dictionaries, and the DA award table `df`
built by `extract_da` (the full tier × seller × period grid of `hsu`/`hsd`
values).  We embed those inputs and the per-(scenario, seller) payoff
computed from them.
-/

/-- Inputs of the payoff loops in `calculate_rt_payoffs`. -/
structure RTPayoffInput where
  numS : ℕ
  numT : ℕ
  numR : ℕ
  sellers : Finset ℕ
  dual : ℕ → ℕ → ℚ
  prob : ℕ → ℚ
  VCUP : ℕ → Option ℚ
  VCDN : ℕ → Option ℚ
  hsu : ℕ → ℕ → ℕ → ℚ
  hsd : ℕ → ℕ → ℕ → ℚ

/-- Rows of `df` selected by the UP mask `(df["R"] >= s) & (df["G"] == g) &
(df["T"] == t)`, projected to the tier index. -/
def upMask (P : RTPayoffInput) (s : ℕ) : Finset ℕ :=
  (Finset.Icc 1 P.numR).filter (fun r => s ≤ r)

/-- Rows of `df` selected by the DN mask `(df["R"] < s) & ...`, projected
to the tier index. -/
def dnMask (P : RTPayoffInput) (s : ℕ) : Finset ℕ :=
  (Finset.Icc 1 P.numR).filter (fun r => r < s)

/-- The UP payoff `calculate_rt_payoffs` accumulates for scenario `s` and
seller `g`: over each period, if the mask selects any row, the negative of
(RT price times the masked `hsu` sum minus `prob[s] * VCUP[g]` times the
same sum); a missing `VCUP[g]` skips the period (`continue`). -/
def calcUpPayoff (P : RTPayoffInput) (s g : ℕ) : ℚ :=
  ∑ t ∈ Finset.Icc 1 P.numT,
    if (upMask P s).Nonempty then
      match P.VCUP g with
      | none => 0
      | some vcup_g =>
          -(P.dual s t * (∑ r ∈ upMask P s, P.hsu r g t) -
            P.prob s * vcup_g * (∑ r ∈ upMask P s, P.hsu r g t))
    else 0

/-- The DN payoff `calculate_rt_payoffs` accumulates for scenario `s` and
seller `g` (non-negated, over the tiers strictly below `s`). -/
def calcDnPayoff (P : RTPayoffInput) (s g : ℕ) : ℚ :=
  ∑ t ∈ Finset.Icc 1 P.numT,
    if (dnMask P s).Nonempty then
      match P.VCDN g with
      | none => 0
      | some vcdn_g =>
          P.dual s t * (∑ r ∈ dnMask P s, P.hsd r g t) -
            P.prob s * vcdn_g * (∑ r ∈ dnMask P s, P.hsd r g t)
    else 0

/-- Modelled from the spec: the claimed UP payoff — over the up-tier
awards with tier index at or above the scenario index, the negative of
(RT price times the award minus the probability-weighted cost times the
award), summed over all periods. -/
def specUpPayoff (P : RTPayoffInput) (vcup_g : ℚ) (s g : ℕ) : ℚ :=
  ∑ t ∈ Finset.Icc 1 P.numT, ∑ r ∈ (Finset.Icc 1 P.numR).filter (fun r => s ≤ r),
    -(P.dual s t * P.hsu r g t - P.prob s * vcup_g * P.hsu r g t)

/-- Modelled from the spec: the claimed DN payoff — the symmetric
non-negated quantity over down-tier awards with tier index strictly below
the scenario index. -/
def specDnPayoff (P : RTPayoffInput) (vcdn_g : ℚ) (s g : ℕ) : ℚ :=
  ∑ t ∈ Finset.Icc 1 P.numT, ∑ r ∈ (Finset.Icc 1 P.numR).filter (fun r => r < s),
    (P.dual s t * P.hsd r g t - P.prob s * vcdn_g * P.hsd r g t)

/-!
## Data preparation (`src/data_utils/DataProcessor.py`)
-/

/-- `required_params` of `prepare_pyomo_data` (lines 271–276). -/
def required_params : List String :=
  ["CAP", "VC", "VCUP", "VCDN", "RR",
   "E_MAX", "P_MAX", "ETA_CH", "ETA_DCH", "E0", "E_FINAL", "STORAGE_COST",
   "D1", "D2", "PEN", "PENDN", "smallM", "probTU", "probTD",
   "DEMAND", "RE"]

/-- `missing_params = [param for param in required_params if param not in
pyomo_data[None]]`, given the keys present in the assembled table. -/
def missing_params (present : List String) : List String :=
  required_params.filter (fun p => !(present.contains p))

/-- Outcome of the validation tail of `prepare_pyomo_data`: the warning
printed (empty list means no warning) and what is returned to the caller. -/
structure PrepareOutcome where
  warning : List String
  table : Option (List String)

/-- The validation tail of `prepare_pyomo_data` (lines 270–282): it
computes the missing keys, prints them as a warning when nonempty, and
then returns the assembled table unconditionally. -/
def prepare_pyomo_data_check (present : List String) : PrepareOutcome :=
  { warning := missing_params present, table := some present }

/-!
## Solver-status handling (`main.py`, `batch_simulation.py`)
-/

/-- Log level chosen by the status check of `run_da_model` /
`run_rt_model` in `main.py`. -/
inductive LogLevel where
  | info : LogLevel
  | warning : LogLevel
deriving DecidableEq

/-- What `run_da_model` does after the solve (`main.py`, lines 134–143):
both branches of the status check fall through to
`return da_instance, opt`, so the instance is returned either way and the
branch only selects the log level (`sys.exit(1)` is commented out). -/
def run_da_model_statusCheck (ok optimal : Bool) : Bool × LogLevel :=
  (true, if ok && optimal then LogLevel.info else LogLevel.warning)

/-- Whether `main()` reaches `process_and_save_results` (settlement),
given the DA/RT solver statuses and whether `extract_da` returned a
non-`None` `dataRT`: only a `None` extraction aborts (`sys.exit(1)`);
solver statuses never do. -/
def main_reachesSettlement (_daOk _daOptimal : Bool) (dataRTSome : Bool)
    (_rtOk _rtOptimal : Bool) : Bool :=
  dataRTSome

/-- Control flow of `batch_simulation.run_single_simulation` (lines
44–106): `None` on a non-ok/non-optimal DA solve, on a `None` `dataRT`,
or on a non-ok/non-optimal RT solve; otherwise the results dict. -/
def run_single_simulation_outcome (daOk daOptimal : Bool) (dataRTSome : Bool)
    (rtOk rtOptimal : Bool) : Option Unit :=
  if !(daOk && daOptimal) then none
  else if !dataRTSome then none
  else if !(rtOk && rtOptimal) then none
  else some ()

/-!
## Concrete instances used as witnesses and counterexamples
-/

/-- A tiny DA dataset: one period, one scenario, two tiers, no generators,
no storage; demand 1, renewable realization 0. -/
def exD1 : DAData where
  numT := 1
  numS := 1
  numR := 2
  numG := 0
  numB := 0
  flag := fun _ => 0
  VC := fun _ => 0
  VCUP := fun _ => 0
  VCDN := fun _ => 0
  CAP := fun _ => 0
  RR := fun _ => 0
  DEMAND := fun _ => 1
  D1 := 0
  D2 := 0
  RE := fun _ _ => 0
  PEN := 0
  PENDN := 0
  smallM := 0
  probTU := fun _ => 0
  probTD := fun _ => 0
  E_MAX := fun _ => 0
  P_MAX := fun _ => 0
  ETA_CH := fun _ => 1
  ETA_DCH := fun _ => 1
  E0 := fun _ => 0
  E_FINAL := fun _ => 0
  STORAGE_COST := fun _ => 0
  VCUP_B := fun _ => 0
  VCDN_B := fun _ => 0
  V_MARG := fun _ => 0

/-- A feasible assignment for `exD1`: the renewable commitment over-covers
the realization by 1, absorbed entirely by the demand-uncertainty
variable (`du = 1`), with no ladder volumes. -/
def exV1 : DAVars where
  d := fun _ => 0
  rgDA := fun _ => 1
  du := fun _ _ => 1
  xDA := fun _ _ => 0
  hsu := fun _ _ _ => 0
  hsd := fun _ _ _ => 0
  hdu := fun _ _ => 0
  hdd := fun _ _ => 0
  sdu := fun _ _ => 0
  sdd := fun _ _ => 0
  y := fun _ _ => 1
  e := fun _ _ => 0
  p_ch := fun _ _ => 0
  p_dch := fun _ _ => 0
  bsu := fun _ _ _ => 0
  bsd := fun _ _ _ => 0
  charge_state := fun _ _ => 0
  discharge_state := fun _ _ => 0

/-- A DA dataset with a single FO *buyer* (`flag = -1`), capacity 1. -/
def exD2 : DAData where
  numT := 1
  numS := 1
  numR := 1
  numG := 1
  numB := 0
  flag := fun _ => -1
  VC := fun _ => 0
  VCUP := fun _ => 0
  VCDN := fun _ => 0
  CAP := fun _ => 1
  RR := fun _ => 0
  DEMAND := fun _ => 1
  D1 := 0
  D2 := 0
  RE := fun _ _ => 1
  PEN := 0
  PENDN := 0
  smallM := 0
  probTU := fun _ => 0
  probTD := fun _ => 0
  E_MAX := fun _ => 0
  P_MAX := fun _ => 0
  ETA_CH := fun _ => 1
  ETA_DCH := fun _ => 1
  E0 := fun _ => 0
  E_FINAL := fun _ => 0
  STORAGE_COST := fun _ => 0
  VCUP_B := fun _ => 0
  VCDN_B := fun _ => 0
  V_MARG := fun _ => 0

/-- A feasible assignment for `exD2`.  The buyer's `xDA` entry is a ghost
value (the source declares `xDA` only over `G_FO_sellers`, so nothing in
the model reads or constrains it); it is set to 2, above `CAP = 1`. -/
def exV2 : DAVars where
  d := fun _ => 0
  rgDA := fun _ => 1
  du := fun _ _ => 0
  xDA := fun _ _ => 2
  hsu := fun _ _ _ => 0
  hsd := fun _ _ _ => 0
  hdu := fun _ _ => 0
  hdd := fun _ _ => 0
  sdu := fun _ _ => 0
  sdd := fun _ _ => 0
  y := fun _ _ => 0
  e := fun _ _ => 0
  p_ch := fun _ _ => 0
  p_dch := fun _ _ => 0
  bsu := fun _ _ _ => 0
  bsd := fun _ _ _ => 0
  charge_state := fun _ _ => 0
  discharge_state := fun _ _ => 0

/-- A DA dataset with a single FO *seller* (`flag = 1`). -/
def exD3 : DAData where
  numT := 1
  numS := 1
  numR := 1
  numG := 1
  numB := 0
  flag := fun _ => 1
  VC := fun _ => 1
  VCUP := fun _ => 1
  VCDN := fun _ => 1
  CAP := fun _ => 2
  RR := fun _ => 1
  DEMAND := fun _ => 2
  D1 := 1
  D2 := 0
  RE := fun _ _ => 1
  PEN := 0
  PENDN := 0
  smallM := 0
  probTU := fun _ => 0
  probTD := fun _ => 0
  E_MAX := fun _ => 0
  P_MAX := fun _ => 0
  ETA_CH := fun _ => 1
  ETA_DCH := fun _ => 1
  E0 := fun _ => 0
  E_FINAL := fun _ => 0
  STORAGE_COST := fun _ => 0
  VCUP_B := fun _ => 0
  VCDN_B := fun _ => 0
  V_MARG := fun _ => 0

/-- A feasible assignment for `exD3`: the seller schedules 1 of its
capacity 2, the renewable commitment covers the rest of demand 2. -/
def exV3 : DAVars where
  d := fun _ => 0
  rgDA := fun _ => 1
  du := fun _ _ => 0
  xDA := fun _ _ => 1
  hsu := fun _ _ _ => 0
  hsd := fun _ _ _ => 0
  hdu := fun _ _ => 0
  hdd := fun _ _ => 0
  sdu := fun _ _ => 0
  sdd := fun _ _ => 0
  y := fun _ _ => 0
  e := fun _ _ => 0
  p_ch := fun _ _ => 0
  p_dch := fun _ _ => 0
  bsu := fun _ _ _ => 0
  bsd := fun _ _ _ => 0
  charge_state := fun _ _ => 0
  discharge_state := fun _ _ => 0

/-- The probe assignment used to separate the `0.2` slack weight from a
uniform `1/S` weight: unit demand slack, everything else zero. -/
def slackProbe : DAVars where
  d := fun _ => 1
  rgDA := fun _ => 0
  du := fun _ _ => 0
  xDA := fun _ _ => 0
  hsu := fun _ _ _ => 0
  hsd := fun _ _ _ => 0
  hdu := fun _ _ => 0
  hdd := fun _ _ => 0
  sdu := fun _ _ => 0
  sdd := fun _ _ => 0
  y := fun _ _ => 0
  e := fun _ _ => 0
  p_ch := fun _ _ => 0
  p_dch := fun _ _ => 0
  bsu := fun _ _ _ => 0
  bsd := fun _ _ _ => 0
  charge_state := fun _ _ => 0
  discharge_state := fun _ _ => 0

/-- Concrete inputs for the RT payoff loops: two scenarios, one period,
one tier, one seller; RT price 3, probability 1/2, `VCUP = 2`,
`VCDN = 1`, awards `hsu = 4`, `hsd = 5`. -/
def exP : RTPayoffInput where
  numS := 2
  numT := 1
  numR := 1
  sellers := {1}
  dual := fun _ _ => 3
  prob := fun _ => 1 / 2
  VCUP := fun _ => some 2
  VCDN := fun _ => some 1
  hsu := fun _ _ _ => 4
  hsd := fun _ _ _ => 5

/-!
## Helper lemmas: the concrete assignments are feasible
-/

theorem exFeasible1 : DAFeasible exD1 exV1 := by
  unfold DAFeasible DADomains DACon3 DACon4UP DACon4DN DACon6 DACon7 DACon8
    DACon9 DACon10up DACon10dn DACon11up DACon11dn DACon12 DACon13
    DAStorageBalance DAStorageCapacity DAStorageFoUp DAStorageFoDown
    DAStorageFoPowerCap DASoftChargeDischarge DAChargingCap DADischargingCap
    DAFoProfitUp DAFoProfitDn con6DownSet con6UpSet G_FO_sellers Gset Tset
    Sset Rset Bset
  norm_num [exD1, exV1, show (Finset.Icc 1 0 : Finset ℕ) = ∅ from rfl,
    show (Finset.Icc 1 1 : Finset ℕ) = {1} from rfl,
    show (Finset.Icc 1 2 : Finset ℕ) = {1, 2} from rfl,
    Finset.filter_insert, Finset.filter_singleton, Finset.filter_empty]

theorem exFeasible2 : DAFeasible exD2 exV2 := by
  unfold DAFeasible DADomains DACon3 DACon4UP DACon4DN DACon6 DACon7 DACon8
    DACon9 DACon10up DACon10dn DACon11up DACon11dn DACon12 DACon13
    DAStorageBalance DAStorageCapacity DAStorageFoUp DAStorageFoDown
    DAStorageFoPowerCap DASoftChargeDischarge DAChargingCap DADischargingCap
    DAFoProfitUp DAFoProfitDn con6DownSet con6UpSet G_FO_sellers Gset Tset
    Sset Rset Bset
  norm_num [exD2, exV2, show (Finset.Icc 1 0 : Finset ℕ) = ∅ from rfl,
    show (Finset.Icc 1 1 : Finset ℕ) = {1} from rfl,
    Finset.filter_insert, Finset.filter_singleton, Finset.filter_empty]

theorem exFeasible3 : DAFeasible exD3 exV3 := by
  unfold DAFeasible DADomains DACon3 DACon4UP DACon4DN DACon6 DACon7 DACon8
    DACon9 DACon10up DACon10dn DACon11up DACon11dn DACon12 DACon13
    DAStorageBalance DAStorageCapacity DAStorageFoUp DAStorageFoDown
    DAStorageFoPowerCap DASoftChargeDischarge DAChargingCap DADischargingCap
    DAFoProfitUp DAFoProfitDn con6DownSet con6UpSet G_FO_sellers Gset Tset
    Sset Rset Bset
  norm_num [exD3, exV3, show (Finset.Icc 1 0 : Finset ℕ) = ∅ from rfl,
    show (Finset.Icc 1 1 : Finset ℕ) = {1} from rfl,
    Finset.filter_insert, Finset.filter_singleton, Finset.filter_empty]

/-!
## Claims
-/

/-- C1 (amended): in every feasible day-ahead solution, for every scenario
`s` and period `t`, the net ladder exercise (down-tier volumes
`hdd + sdd` over tiers `r ≤ s - 1` minus up-tier volumes `hdu + sdu` over
tiers `r ≥ s`) **minus** the demand uncertainty `du[s,t]` equals the
scenario's deviation `RE[s,t] - rgDA[t]` from the committed renewable
schedule; equivalently, up tier `r` enters exactly the identities of
scenarios `s ≤ r` and down tier `r` those of scenarios `s ≥ r + 1`. -/
theorem con6_flex_demand_identity (D : DAData) (v : DAVars)
    (h : DAFeasible D v) (s : ℕ) (hs : s ∈ Sset D) (t : ℕ) (ht : t ∈ Tset D) :
    (∑ r ∈ con6DownSet D s, (v.hdd r t + v.sdd r t)) -
      (∑ r ∈ con6UpSet D s, (v.hdu r t + v.sdu r t)) - v.du s t =
      D.RE s t - v.rgDA t := by
  have h6 := h.2.2.2.2.1 s hs t ht
  linarith

/-- Witness for C1 at `exD1`, scenario 1, period 1. -/
theorem con6_flex_demand_identity_witness :
    (∑ r ∈ con6DownSet exD1 1, (exV1.hdd r 1 + exV1.sdd r 1)) -
      (∑ r ∈ con6UpSet exD1 1, (exV1.hdu r 1 + exV1.sdu r 1)) - exV1.du 1 1 =
      exD1.RE 1 1 - exV1.rgDA 1 :=
  con6_flex_demand_identity exD1 exV1 exFeasible1 1 (by decide) 1 (by decide)

/-- C1 counterexample: `exV1` is feasible for `exD1`, yet demand
uncertainty **plus** net ladder exercise differs from the deviation
(`Con6` enters `du` negated), and the tier sets selected by `Con6`
disagree with the spec's "up tier `r` exercised iff realized scenario
index ≥ r / down tier iff ≤ r−1" convention. -/
theorem con6_flex_demand_claim_counterexample :
    DAFeasible exD1 exV1 ∧
    ¬(exV1.du 1 1 + (∑ r ∈ con6DownSet exD1 1, (exV1.hdd r 1 + exV1.sdd r 1)) -
        (∑ r ∈ con6UpSet exD1 1, (exV1.hdu r 1 + exV1.sdu r 1)) =
        exD1.RE 1 1 - exV1.rgDA 1) ∧
    con6UpSet exD1 1 ≠ specUpExerciseSet exD1 1 ∧
    con6DownSet exD1 1 ≠ specDownExerciseSet exD1 1 :=
  ⟨exFeasible1,
    by
      norm_num [exD1, exV1, con6DownSet, con6UpSet, Rset,
        show (Finset.Icc 1 2 : Finset ℕ) = {1, 2} from rfl,
        Finset.filter_insert, Finset.filter_singleton],
    by decide, by decide⟩

/-- C2: in every feasible day-ahead solution, for every period `t`, seller
energy plus the committed renewable plus net storage discharge plus the
demand slack equals demand — `Con3` holds with equality. -/
theorem da_energy_balance_exact (D : DAData) (v : DAVars)
    (h : DAFeasible D v) (t : ℕ) (ht : t ∈ Tset D) :
    (∑ g ∈ G_FO_sellers D, v.xDA g t) + v.rgDA t +
      (∑ b ∈ Bset D, (v.p_dch b t - v.p_ch b t)) + v.d t = D.DEMAND t :=
  h.2.1 t ht

/-- Witness for C2 at `exD3`, period 1. -/
theorem da_energy_balance_exact_witness :
    (∑ g ∈ G_FO_sellers exD3, exV3.xDA g 1) + exV3.rgDA 1 +
      (∑ b ∈ Bset exD3, (exV3.p_dch b 1 - exV3.p_ch b 1)) + exV3.d 1 =
      exD3.DEMAND 1 :=
  da_energy_balance_exact exD3 exV3 exFeasible3 1 (by decide)

/-- C6 (amended): in every feasible day-ahead solution, for every seller
`g` and period `t`, `xDA[g,t] + Σ_r hsu[r,g,t] ≤ CAP[g]` (`Con12`) and
`Σ_r hsd[r,g,t] ≤ xDA[g,t]` (`Con13`).  (Buyers carry no DA dispatch
variable and appear in no capacity constraint: `Con12` is indexed over
`G_FO_sellers` only, so the buyer branch of `generation_limits` is
unreachable.) -/
theorem generation_limits_sellers (D : DAData) (v : DAVars)
    (h : DAFeasible D v) :
    (∀ g ∈ G_FO_sellers D, ∀ t ∈ Tset D,
      v.xDA g t + (∑ r ∈ Rset D, v.hsu r g t) ≤ D.CAP g) ∧
    (∀ g ∈ G_FO_sellers D, ∀ t ∈ Tset D,
      (∑ r ∈ Rset D, v.hsd r g t) ≤ v.xDA g t) := by
  obtain ⟨-, -, -, -, -, -, -, -, -, -, -, -, h12, h13, -, -, -, -, -, -, -,
    -, -, -⟩ := h
  exact ⟨h12, h13⟩

/-- Witness for C6 at `exD3`, seller 1, period 1. -/
theorem generation_limits_sellers_witness :
    exV3.xDA 1 1 + (∑ r ∈ Rset exD3, exV3.hsu r 1 1) ≤ exD3.CAP 1 :=
  (generation_limits_sellers exD3 exV3 exFeasible3).1 1 (by decide) 1 (by decide)

/-- C6 counterexample: a model whose only generator is a buyer
(`flag = -1`) admits the feasible assignment `exV2` although the buyer's
(ghost) dispatch value 2 exceeds `CAP = 1` — no constraint of the model
bounds a buyer's dispatch by `CAP`, because buyers are outside
`G_FO_sellers`, the only index set of `generation_limits`. -/
theorem buyer_capacity_counterexample :
    DAFeasible exD2 exV2 ∧ 1 ∈ G_FO_buyers exD2 ∧ 1 ∉ G_FO_sellers exD2 ∧
    ¬(exV2.xDA 1 1 ≤ exD2.CAP 1) :=
  ⟨exFeasible2, by decide, by decide, by norm_num [exD2, exV2]⟩

/-- C3: for a seller `g` with costs `VCUP[g] = vcup_g` and
`VCDN[g] = vcdn_g` in the RT data, the payoffs accumulated by
`calculate_rt_payoffs` coincide with the claimed per-award form: UP is the
negated sum, over the up-tier awards with tier index at or above the
scenario index, of (RT price times award minus probability-weighted cost
times award); DN is the symmetric non-negated sum over tier indices
strictly below the scenario index. -/
theorem rt_payoffs_formula (P : RTPayoffInput) (s g : ℕ) (vcup_g vcdn_g : ℚ)
    (hU : P.VCUP g = some vcup_g) (hD : P.VCDN g = some vcdn_g) :
    calcUpPayoff P s g = specUpPayoff P vcup_g s g ∧
    calcDnPayoff P s g = specDnPayoff P vcdn_g s g := by
  constructor
  · unfold calcUpPayoff specUpPayoff
    refine Finset.sum_congr rfl (fun t _ => ?_)
    by_cases hne : (upMask P s).Nonempty
    · rw [if_pos hne, hU]
      show _ = ∑ r ∈ upMask P s, _
      rw [Finset.sum_neg_distrib, Finset.sum_sub_distrib, ← Finset.mul_sum,
        ← Finset.mul_sum]
    · rw [if_neg hne]
      have hempty : upMask P s = ∅ := Finset.not_nonempty_iff_eq_empty.mp hne
      show (0 : ℚ) = ∑ r ∈ upMask P s, _
      rw [hempty, Finset.sum_empty]
  · unfold calcDnPayoff specDnPayoff
    refine Finset.sum_congr rfl (fun t _ => ?_)
    by_cases hne : (dnMask P s).Nonempty
    · rw [if_pos hne, hD]
      show _ = ∑ r ∈ dnMask P s, _
      rw [Finset.sum_sub_distrib, ← Finset.mul_sum, ← Finset.mul_sum]
    · rw [if_neg hne]
      have hempty : dnMask P s = ∅ := Finset.not_nonempty_iff_eq_empty.mp hne
      show (0 : ℚ) = ∑ r ∈ dnMask P s, _
      rw [hempty, Finset.sum_empty]

/-- Witness for C3 at the concrete input `exP`, scenario 1, seller 1. -/
theorem rt_payoffs_formula_witness :
    calcUpPayoff exP 1 1 = specUpPayoff exP 2 1 1 :=
  (rt_payoffs_formula exP 1 1 2 1 rfl rfl).1

/-- C4 counterexample: with a non-ok, non-optimal DA solver status,
`main.py` still returns the DA instance from `run_da_model` (only logging
a warning) and, provided `extract_da` yields a `dataRT`, proceeds to the
RT solve and settlement — the run is not abandoned. -/
theorem solver_status_counterexample :
    run_da_model_statusCheck false false = (true, LogLevel.warning) ∧
    main_reachesSettlement false false true true true = true :=
  ⟨rfl, rfl⟩

/-- C4 (amended): `batch_simulation.run_single_simulation` abandons the
run (returns `None`) unless both solves are ok and optimal and the
extraction succeeds, whereas `main.py` always returns the DA instance —
warning on non-optimal status — and reaches settlement whenever
`extract_da` succeeds, regardless of solver status. -/
theorem solver_status_handling :
    ∀ daOk daOptimal dataRTSome rtOk rtOptimal : Bool,
      (run_single_simulation_outcome daOk daOptimal dataRTSome rtOk rtOptimal =
          some () ↔
        daOk = true ∧ daOptimal = true ∧ dataRTSome = true ∧ rtOk = true ∧
          rtOptimal = true) ∧
      (run_da_model_statusCheck daOk daOptimal).1 = true ∧
      ((run_da_model_statusCheck daOk daOptimal).2 = LogLevel.warning ↔
        ¬(daOk = true ∧ daOptimal = true)) ∧
      main_reachesSettlement daOk daOptimal dataRTSome rtOk rtOptimal =
        dataRTSome := by
  decide

/-- C5 counterexample: with only `CAP` present, the required-parameter
check of `prepare_pyomo_data` finds missing keys, yet the assembled table
is still returned to the caller — the run is not abandoned. -/
theorem prepare_missing_params_counterexample :
    missing_params ["CAP"] ≠ [] ∧
    (prepare_pyomo_data_check ["CAP"]).table = some ["CAP"] :=
  ⟨by decide, rfl⟩

/-- C5 (amended): `prepare_pyomo_data` prints a warning listing exactly
the hard-required parameters missing from the assembled table, but then
returns the table unconditionally — missing required keys never stop the
hand-off to model construction. -/
theorem prepare_pyomo_data_validation :
    ∀ present : List String,
      (∀ p, p ∈ (prepare_pyomo_data_check present).warning ↔
        p ∈ required_params ∧ present.contains p = false) ∧
      (prepare_pyomo_data_check present).table = some present := by
  intro present
  constructor
  · intro p
    simp [prepare_pyomo_data_check, missing_params, List.mem_filter]
  · rfl

/-- C7: the scenario probabilities that `extract_da` carries into the
real-time stage are uniform: each scenario in `1..S` receives `1/S`, and
they sum to 1. -/
theorem extract_da_prob_uniform (S : ℕ) (hS : 1 ≤ S) :
    (∀ s ∈ Finset.Icc 1 S, extract_da_prob S s = 1 / (S : ℚ)) ∧
    (∑ s ∈ Finset.Icc 1 S, extract_da_prob S s = 1) := by
  have hS0 : (S : ℚ) ≠ 0 := Nat.cast_ne_zero.mpr (by omega)
  constructor
  · intro s _
    rfl
  · unfold extract_da_prob
    rw [Finset.sum_const, Nat.card_Icc, nsmul_eq_mul]
    rw [show S + 1 - 1 = S from by omega]
    field_simp

/-- Witness for C7 at `S = 3`. -/
theorem extract_da_prob_uniform_witness :
    ∑ s ∈ Finset.Icc 1 3, extract_da_prob 3 s = 1 :=
  (extract_da_prob_uniform 3 (by norm_num)).2

/-- C9: `RTSimModel` defines no `G_FO_sellers` component (and no `flag`
parameter, although `extract_da` puts a `flag` entry into the RT data), so
`calculate_rt_margins` and `calculate_rt_payoffs` fail on their first
access to `G_FO_sellers` instead of returning margin/payoff tables. -/
theorem rtsim_missing_sellers :
    calculate_rt_margins_onRT = Except.error "G_FO_sellers" ∧
    calculate_rt_payoffs_onRT = Except.error "G_FO_sellers" ∧
    "G_FO_sellers" ∉ rtsimComponentNames ∧
    "flag" ∈ extract_da_dataRT_keys ∧
    "flag" ∉ rtsimComponentNames :=
  ⟨rfl, rfl, by decide, by decide, by decide⟩

/-- C8: with an empty storage set, every storage-indexed sum vanishes and
the day-ahead model — objective value and constraint set — coincides with
the no-storage formulation. -/
theorem zero_storage_degeneracy (D : DAData) (v : DAVars) (hB : D.numB = 0) :
    dafoObj D v = dafoObjNoStorage D v ∧
    (DAFeasible D v ↔ DAFeasibleNoStorage D v) := by
  have hBempty : Bset D = ∅ := by
    unfold Bset
    rw [hB]
    exact Finset.Icc_eq_empty (by omega)
  constructor
  · unfold dafoObj dafoObjNoStorage
    rw [hBempty]
    simp
  · unfold DAFeasible DAFeasibleNoStorage DADomains DADomainsNoStorage DACon3
      DACon3NoStorage DACon4UP DACon4UPNoStorage DACon4DN DACon4DNNoStorage
      DAStorageBalance DAStorageCapacity DAStorageFoUp DAStorageFoDown
      DAStorageFoPowerCap DASoftChargeDischarge DAChargingCap DADischargingCap
      DAFoProfitUp DAFoProfitDn
    rw [hBempty]
    simp

/-- Witness for C8 at `exD3` (`numB = 0`). -/
theorem zero_storage_degeneracy_witness :
    dafoObj exD3 exV3 = dafoObjNoStorage exD3 exV3 :=
  (zero_storage_degeneracy exD3 exV3 rfl).1

/-- The two demand-slack terms of the objective, isolated: `dafoObj` is
the slack-free part plus `1/5` times the unweighted scenario slack sum. -/
theorem slack_decomp (D : DAData) (v : DAVars) :
    dafoObj D v = dafoObjNonSlack D v + (1 / 5 : ℚ) * scenSlackSum D v := by
  unfold dafoObj dafoObjNonSlack scenSlackSum
  simp only [mul_add, Finset.sum_add_distrib, Finset.mul_sum, mul_assoc]
  ring

/-- C10: the demand-slack cost in the day-ahead objective carries the
fixed weight `0.2 = 1/5` for every scenario count, and it agrees with the
expected slack cost under uniform `1/S` weights precisely when `S = 5`. -/
theorem slack_cost_weight (D : DAData) (hS : 1 ≤ D.numS) (hT : 1 ≤ D.numT)
    (hD1 : 0 < D.D1) (hD2 : 0 ≤ D.D2) :
    (∀ v : DAVars,
      dafoObj D v = dafoObjNonSlack D v + (1 / 5 : ℚ) * scenSlackSum D v) ∧
    ((∀ v : DAVars,
        dafoObj D v = dafoObjNonSlack D v + uniformSlackCost D v) ↔
      D.numS = 5) := by
  have hS0 : ((D.numS : ℚ)) ≠ 0 := Nat.cast_ne_zero.mpr (by omega)
  refine ⟨fun v => slack_decomp D v, ?_, ?_⟩
  · intro hAll
    have h1 := slack_decomp D slackProbe
    have h2 := hAll slackProbe
    have hEq : (1 / 5 : ℚ) * scenSlackSum D slackProbe =
        uniformSlackCost D slackProbe := by linarith
    have hscen : scenSlackSum D slackProbe =
        (D.numS : ℚ) * ((D.numT : ℚ) * (D.D1 + D.D2)) := by
      unfold scenSlackSum slackProbe Sset Tset
      simp [Finset.sum_const, Nat.card_Icc, nsmul_eq_mul]
      ring
    have huni : uniformSlackCost D slackProbe =
        (D.numT : ℚ) * (D.D1 + D.D2) := by
      unfold uniformSlackCost slackProbe Sset Tset
      simp [Finset.sum_const, Nat.card_Icc, nsmul_eq_mul]
      field_simp
      ring
    rw [hscen, huni] at hEq
    have hX : 0 < (D.numT : ℚ) * (D.D1 + D.D2) := by
      have hT0 : (0 : ℚ) < (D.numT : ℚ) := by exact_mod_cast by omega
      have : (0 : ℚ) < D.D1 + D.D2 := by linarith
      exact mul_pos hT0 this
    have h5 : (D.numS : ℚ) * ((D.numT : ℚ) * (D.D1 + D.D2)) =
        5 * ((D.numT : ℚ) * (D.D1 + D.D2)) := by linarith
    have hcast : (D.numS : ℚ) = 5 := mul_right_cancel₀ (ne_of_gt hX) h5
    exact_mod_cast hcast
  · intro h5 v
    rw [slack_decomp D v]
    congr 1
    unfold uniformSlackCost scenSlackSum
    rw [Finset.mul_sum]
    refine Finset.sum_congr rfl (fun s _ => ?_)
    rw [h5]
    norm_num

/-- Witness for C10 at `exD3` (`S = 1`, `T = 1`, `D1 = 1`, `D2 = 0`). -/
theorem slack_cost_weight_witness :
    dafoObj exD3 exV3 =
      dafoObjNonSlack exD3 exV3 + (1 / 5 : ℚ) * scenSlackSum exD3 exV3 :=
  (slack_cost_weight exD3 (by norm_num [exD3]) (by norm_num [exD3])
    (by norm_num [exD3]) (by norm_num [exD3])).1 exV3

end FlexOpt
